import Mathlib

/-!
Verification of the draw-and-guess repository core: the canvas undo/redo
history engine (frontend/src/components/DrawingCanvas.tsx) and the AI guess
orchestrator (backend AIService and frontend aiService.ts), shallowly
embedded as pure Lean functions.
-/

namespace DrawGuess

/-! ## Canvas History Engine (DrawingCanvas.tsx)

The React component keeps `history : DrawingHistory[]` and
`historyIndex : number` (initially `-1`).  Each history entry is an
`{ imageData, timestamp }` record; the engine never inspects the pixel
buffer, so `imageData` is modelled as an opaque type parameter. -/

structure HistoryEntry (α : Type) where
  imageData : α
  timestamp : Nat
deriving DecidableEq, Repr

structure CanvasHistory (α : Type) where
  history : List (HistoryEntry α)
  historyIndex : Int
deriving DecidableEq, Repr

variable {α : Type}

/-- Initial component state: `history = []`, `historyIndex = -1`. -/
def initialCanvas : CanvasHistory α := ⟨[], -1⟩

/-- Function `saveToHistory` (DrawingCanvas.tsx lines 84-106): take
`history.slice(0, historyIndex + 1)`, push the new entry, and if the result
exceeds 50 entries `shift()` the oldest one out (leaving `historyIndex`
untouched), otherwise set `historyIndex = newHistory.length - 1`. -/
def saveToHistory (s : CanvasHistory α) (d : α) (now : Nat) : CanvasHistory α :=
  let newHistory := s.history.take (s.historyIndex + 1).toNat ++ [⟨d, now⟩]
  if 50 < newHistory.length then
    { history := newHistory.drop 1, historyIndex := s.historyIndex }
  else
    { history := newHistory, historyIndex := (newHistory.length : Int) - 1 }

/-- Function `undo` (lines 109-118): decrement `historyIndex` when it is positive
and repaint from `history[historyIndex - 1]`; otherwise do nothing. -/
def undo (s : CanvasHistory α) : CanvasHistory α :=
  if 0 < s.historyIndex then { s with historyIndex := s.historyIndex - 1 } else s

/-- Function `redo` (lines 121-130): increment `historyIndex` when it is below
`history.length - 1` and repaint from `history[historyIndex + 1]`. -/
def redo (s : CanvasHistory α) : CanvasHistory α :=
  if s.historyIndex < (s.history.length : Int) - 1 then
    { s with historyIndex := s.historyIndex + 1 }
  else s

/-- Predicate `canUndo` (line 332): `historyIndex > 0`. -/
def canUndo (s : CanvasHistory α) : Bool := 0 < s.historyIndex

/-- Predicate `canRedo` (line 333): `historyIndex < history.length - 1`. -/
def canRedo (s : CanvasHistory α) : Bool := s.historyIndex < (s.history.length : Int) - 1

/-- The snapshot currently displayed: `history[historyIndex]`
(`undefined`, i.e. `none`, when the index is `-1`). -/
def current (s : CanvasHistory α) : Option (HistoryEntry α) :=
  if s.historyIndex < 0 then none else s.history[s.historyIndex.toNat]?

/-- Perform a whole sequence of `saveToHistory` commits in order; each list
element is a snapshot together with the clock value at commit time. -/
def commitAll (s : CanvasHistory α) : List (α × Nat) → CanvasHistory α
  | [] => s
  | (d, t) :: rest => commitAll (saveToHistory s d t) rest

/-! ## Guess results (shared shape)

Interface `AIGuessResponse` from `types/game.d.ts`: `guess`, `confidence`,
`processingTime`, optional `suggestions`, `success`, optional `error`.
Decimal number literals of the source are modelled as exact rationals. -/

structure AIGuessResponse where
  guess : String
  confidence : ℚ
  processingTime : ℚ
  suggestions : Option (List String)
  success : Bool
  error : Option String
deriving DecidableEq, Repr

/-- JavaScript `haystack.includes(needle)` on the underlying character list:
auxiliary recursion over the haystack. -/
def containsSubAux (sub : List Char) : List Char → Bool
  | [] => sub.isEmpty
  | c :: rest => sub.isPrefixOf (c :: rest) || containsSubAux sub rest

/-- JavaScript `hay.includes(sub)`. -/
def containsSub (hay sub : String) : Bool := containsSubAux sub.toList hay.toList

/-- JavaScript `s.startsWith(p)` on the underlying character list. -/
def strStartsWith (s p : String) : Bool := p.toList.isPrefixOf s.toList

/-! ## Backend Guess Orchestrator (`AIService`, backend ai.service source)

The effectful parts (environment variables, the OpenAI network call, the
`Promise.race` against the timeout timer, `Math.random()`) are modelled as an
explicit environment: the remote call either resolves at some time with an
optional message content, rejects at some time with an error message, or
never settles; the random draws feeding the fallback generator are passed as
rationals in `[0, 1)`. -/

namespace Backend

/-- Behaviour of the remote OpenAI call for one request: it resolves at
`t` milliseconds with the optional message content, rejects at `t`
milliseconds with an error message, or never settles. -/
inductive RemoteBehavior
  | resolves (content : Option String) (t : Nat)
  | rejects (msg : String) (t : Nat)
  | hangs
deriving DecidableEq, Repr

/-- One-request environment for `guessImage`: whether `OPENAI_API_KEY` is
set, the parsed `AI_TIMEOUT` variable if present, the remote call
behaviour, and the `Math.random()` draws consumed by the fallback
generator (`r` picks the pool entry, `rjit` the simulated latency). -/
structure BackendEnv where
  apiKeySet : Bool
  aiTimeoutEnv : Option Nat
  remote : RemoteBehavior
  r : ℚ
  rjit : ℚ
deriving DecidableEq, Repr

/-- Timeout used by `guessImage`: `process.env.AI_TIMEOUT ? parseInt(...) :
60000`. -/
def backendTimeout (envVal : Option Nat) : Nat := envVal.getD 60000

/-- Pool of guesses for large images (`largeImageGuesses`). -/
def largeImageGuesses : List String :=
  ["一幅复杂的画作", "一张风景照片", "一个详细的图案", "一幅抽象艺术"]

/-- Pool of guesses for small images (`smallImageGuesses`). -/
def smallImageGuesses : List String :=
  ["一个简单的图标", "一个小图案", "一个符号", "一个标记"]

/-- Default pool of everyday-object guesses (`defaultGuesses`). -/
def defaultGuesses : List String :=
  ["一只猫", "一朵花", "一座山", "一辆汽车", "一只鸟", "一棵树",
   "一轮月亮", "一栋房子", "一个苹果", "一只狗", "一个人物", "一个动物"]

/-- Pool selection in `getIntelligentMockResponse`: start from
`defaultGuesses`, switch to the large pool when `imageSize > 100000` and to
the small pool when `imageSize < 10000`. -/
def guessPoolFor (imageSize : Nat) : List String :=
  if 100000 < imageSize then largeImageGuesses
  else if imageSize < 10000 then smallImageGuesses
  else defaultGuesses

/-- Fixed suggestion list returned by every fallback response
(`smartSuggestions`). -/
def smartSuggestions : List String := ["物体识别", "图案分析", "形状特征", "颜色构成"]

/-- Function `getIntelligentMockResponse(imageData, reason?)`: derive
`imageSize` from the string length and the format marker from a
`data:image/` head, pick `guessPool[Math.floor(Math.random() * length)]`,
set confidence `0.7` with marker and `0.6` without, simulated
`processingTime = 500 + Math.random() * 1000`, `success: true`, and the
fixed suggestion list.  The `reason` argument is only logged and does not
appear in the returned object (so `error := none`). -/
def getIntelligentMockResponse (imageData : String) (reason : Option String)
    (r rjit : ℚ) : AIGuessResponse :=
  let imageSize := imageData.length
  let hasDataUriMarker := strStartsWith imageData ("data:image/")
  let guessPool := guessPoolFor imageSize
  let intelligentGuess := guessPool.getD (Int.toNat ⌊r * guessPool.length⌋) ""
  let confidence : ℚ := if hasDataUriMarker then 7/10 else 6/10
  { guess := intelligentGuess
    confidence := confidence
    processingTime := 500 + rjit * 1000
    success := true
    suggestions := some smartSuggestions
    error := none }

/-- Guess text extraction in `callOpenAI`:
`response.choices[0]?.message?.content?.trim() || default`. -/
def processRemoteGuess (content : Option String) : String :=
  let t := (content.getD ("")).trim
  if t = "" then "无法识别图片内容" else t

/-- Confidence heuristic in `callOpenAI`: start at `0.8`, use `0.9` when the
guess is longer than 20 characters and `0.7` when shorter than 5. -/
def confidenceForGuess (g : String) : ℚ :=
  if 20 < g.length then 9/10 else if g.length < 5 then 7/10 else 8/10

/-- Function `generateSmartSuggestions(guess)`: keyword-match the guess text
against the fixed categories, fall back to the generic set when nothing
matched, and keep at most four entries (`slice(0, 4)`). -/
def generateSmartSuggestions (guess : String) : List String :=
  let s1 := if containsSub guess ("猫") || containsSub guess ("狗") || containsSub guess ("鸟")
    then ["动物", "宠物", "哺乳动物"] else []
  let s2 := if containsSub guess ("花") || containsSub guess ("树") || containsSub guess ("山")
    then ["自然", "植物", "风景"] else []
  let s3 := if containsSub guess ("车") || containsSub guess ("房子")
    then ["物品", "交通工具", "建筑"] else []
  let s4 := if containsSub guess ("人") then ["人物", "人脸", "肖像"] else []
  let suggestions := s1 ++ s2 ++ s3 ++ s4
  let suggestions := if suggestions.isEmpty then ["物体", "图案", "形状"] else suggestions
  suggestions.take 4

/-- Error remapping in the catch block of `callOpenAI`: messages containing
`401`, `429` or `quota` are rethrown with a fixed human-readable Chinese
message, in that order; anything else is rethrown unchanged. -/
def mapOpenAIError (msg : String) : String :=
  if containsSub msg ("401") then "API认证失败，请检查API密钥"
  else if containsSub msg ("429") then "API调用频率限制，请稍后重试"
  else if containsSub msg ("quota") then "API配额不足"
  else msg

/-- Successful result assembled by `callOpenAI`: guess text, length-derived
confidence and keyword-derived suggestions. -/
def callOpenAISuccess (content : Option String) : String × ℚ × List String :=
  let guess := processRemoteGuess content
  (guess, confidenceForGuess guess, generateSmartSuggestions guess)

/-- Outcome of one `guessImage` call: the resolved response, whether the
remote API was attempted, and the wall-clock milliseconds until the promise
resolved. -/
structure GuessOutcome where
  resp : AIGuessResponse
  remoteAttempted : Bool
  elapsedMs : Nat
deriving DecidableEq, Repr

/-- Fallback branch of the `guessImage` catch block: build the intelligent
mock response from the error message (logged only), then override
`processingTime` with the elapsed wall clock and keep `success: true`. -/
def fallbackOutcome (img : String) (msg : String) (t : Nat) (env : BackendEnv) :
    GuessOutcome :=
  let m := getIntelligentMockResponse img (some msg) env.r env.rjit
  { resp := { m with processingTime := (t : ℚ), success := true }
    remoteAttempted := true
    elapsedMs := t }

/-- Function `AIService.guessImage(imageBase64)`: without an API key return
the mock response directly (no remote attempt); otherwise race
`callOpenAI` against a timer of `backendTimeout` milliseconds.  A remote
resolution before the timer yields the success path; a remote rejection
before the timer is caught and produces the fallback; if the timer fires
first the `AI识别超时` error is caught and produces the fallback. -/
def guessImage (img : String) (env : BackendEnv) : GuessOutcome :=
  let timeout := backendTimeout env.aiTimeoutEnv
  if env.apiKeySet = false then
    { resp := getIntelligentMockResponse img none env.r env.rjit
      remoteAttempted := false
      elapsedMs := 0 }
  else
    match env.remote with
    | .resolves content t =>
      if t < timeout then
        let res := callOpenAISuccess content
        { resp := { guess := res.1, confidence := res.2.1,
                    suggestions := some res.2.2, processingTime := (t : ℚ),
                    success := true, error := none }
          remoteAttempted := true
          elapsedMs := t }
      else
        fallbackOutcome img "AI识别超时" timeout env
    | .rejects msg t =>
      if t < timeout then fallbackOutcome img (mapOpenAIError msg) t env
      else fallbackOutcome img "AI识别超时" timeout env
    | .hangs => fallbackOutcome img "AI识别超时" timeout env

end Backend

/-! ## Frontend AI service (`frontend/src/services/aiService.ts`) -/

namespace Frontend

/-- Behaviour of the backend HTTP call made by `callAIApi`: either the
request succeeds and the parsed body data is returned at time `t`, or some
step throws (abort/timeout, non-ok status, `success: false` body,
network failure). -/
inductive ApiOutcome
  | ok (guess : String) (confidence : ℚ) (suggestions : Option (List String)) (t : Nat)
  | fail (msg : String)
deriving DecidableEq, Repr

/-- One-request environment for the frontend `guessImage`: the
`isOnlineMode` flag, the HTTP call behaviour and the `Math.random()` draws
consumed by `getMockResponse`. -/
structure FrontendEnv where
  isOnlineMode : Bool
  api : ApiOutcome
  r : ℚ
  rjit : ℚ
deriving DecidableEq, Repr

/-- Constructor merge `{ timeout: 30000, model: ..., ...config }`: the
timeout defaults to 30000 ms when the caller supplies none. -/
def frontendConfigTimeout (cfgTimeout : Option Nat) : Nat := cfgTimeout.getD 30000

/-- Fixed mock response table of `getMockResponse`. -/
def mockResponses : List (String × ℚ × List String) :=
  [("一只可爱的猫咪", 92/100, ["猫", "宠物", "小猫"]),
   ("美丽的日落风景", 88/100, ["日落", "风景", "夕阳"]),
   ("一辆红色汽车", 85/100, ["汽车", "车辆", "红色"]),
   ("绿色的树木", 90/100, ["树", "植物", "自然"]),
   ("蓝色的大海", 87/100, ["海", "水", "蓝色"]),
   ("黄色的太阳", 94/100, ["太阳", "阳光", "黄色"]),
   ("一座山", 89/100, ["山", "山峰", "自然"]),
   ("一朵花", 91/100, ["花", "植物", "美丽"]),
   ("一只狗", 93/100, ["狗", "宠物", "动物"]),
   ("房子", 86/100, ["建筑", "房屋", "家"])]

/-- Function `getMockResponse`: pick
`mockResponses[Math.floor(Math.random() * length)]` and report a simulated
`processingTime = 1500 + Math.random() * 1000`. -/
def getMockResponse (r rjit : ℚ) : AIGuessResponse :=
  let mr := mockResponses.getD (Int.toNat ⌊r * mockResponses.length⌋) ("", 0, [])
  { guess := mr.1
    confidence := mr.2.1
    suggestions := some mr.2.2
    processingTime := 1500 + rjit * 1000
    success := true
    error := none }

/-- Frontend `AIService.guessImage(imageData, mimeType)`: in offline mode
return the mock response without touching the network; in online mode
return the API data on success (with `suggestions || []` and
`success: true`) and fall back to the mock response when `callAIApi`
throws. -/
def guessImage (env : FrontendEnv) : Backend.GuessOutcome :=
  if env.isOnlineMode = false then
    { resp := getMockResponse env.r env.rjit
      remoteAttempted := false
      elapsedMs := 0 }
  else
    match env.api with
    | .ok g c sug t =>
      { resp := { guess := g, confidence := c, suggestions := some (sug.getD []),
                  processingTime := (t : ℚ), success := true, error := none }
        remoteAttempted := true
        elapsedMs := t }
    | .fail _ =>
      { resp := getMockResponse env.r env.rjit
        remoteAttempted := true
        elapsedMs := 0 }

end Frontend

/-! ## Canvas history lemmas -/

theorem saveToHistory_length_le (s : CanvasHistory α) (d : α) (now : Nat)
    (h : s.history.length ≤ 50) : (saveToHistory s d now).history.length ≤ 50 := by
  simp only [saveToHistory]
  split
  · simp only [List.length_drop, List.length_append, List.length_take, List.length_cons,
      List.length_nil]
    omega
  · next hb =>
      simp only [not_lt] at hb
      simpa using hb

theorem commitAll_length_le (ds : List (α × Nat)) (s : CanvasHistory α)
    (h : s.history.length ≤ 50) : (commitAll s ds).history.length ≤ 50 := by
  induction ds generalizing s with
  | nil => simpa [commitAll] using h
  | cons p rest ih => exact ih _ (saveToHistory_length_le _ _ _ h)

theorem current_saveToHistory_eq (s : CanvasHistory α) (d : α) (now : Nat)
    (h0 : -1 ≤ s.historyIndex) (h1 : s.historyIndex < (s.history.length : Int)) :
    current (saveToHistory s d now) = some ⟨d, now⟩ := by
  have hk : (s.historyIndex + 1).toNat ≤ s.history.length := by omega
  have htake : (s.history.take (s.historyIndex + 1).toNat).length
      = (s.historyIndex + 1).toNat := by
    simp only [List.length_take]
    omega
  simp only [saveToHistory]
  split
  · next hb =>
      simp only [List.length_append, htake, List.length_cons, List.length_nil] at hb
      have hnn : ¬ s.historyIndex < 0 := by omega
      simp only [current, hnn, if_false]
      rw [List.getElem?_drop]
      have hidx : 1 + s.historyIndex.toNat
          = (s.history.take (s.historyIndex + 1).toNat).length := by
        rw [htake]; omega
      rw [hidx, List.getElem?_concat_length]
  · next hb =>
      have hnn : ¬ ((s.history.take (s.historyIndex + 1).toNat
          ++ [(⟨d, now⟩ : HistoryEntry α)]).length : Int) - 1 < 0 := by
        simp only [List.length_append, htake, List.length_cons, List.length_nil]
        omega
      simp only [current, hnn, if_false]
      have hidx : (((s.history.take (s.historyIndex + 1).toNat
          ++ [(⟨d, now⟩ : HistoryEntry α)]).length : Int) - 1).toNat
          = (s.history.take (s.historyIndex + 1).toNat).length := by
        simp only [List.length_append, htake, List.length_cons, List.length_nil]
        omega
      rw [hidx, List.getElem?_concat_length]

theorem redo_undo_eq (s : CanvasHistory α) (h0 : 0 < s.historyIndex)
    (h1 : s.historyIndex < (s.history.length : Int)) : redo (undo s) = s := by
  simp only [undo, h0, if_true]
  simp only [redo]
  have hlt : s.historyIndex - 1 < ((s.history.length : Int)) - 1 := by omega
  simp only [hlt, if_true]
  cases s with
  | mk h i => simp

theorem commit_after_undo_canRedo (s : CanvasHistory α) (d : α) (now : Nat)
    (hlen : s.history.length ≤ 50)
    (hredo : s.historyIndex < (s.history.length : Int) - 1) :
    canRedo (saveToHistory s d now) = false ∧
      (saveToHistory s d now).history
        = s.history.take (s.historyIndex + 1).toNat ++ [⟨d, now⟩] := by
  have htake : (s.history.take (s.historyIndex + 1).toNat).length
      = (s.historyIndex + 1).toNat := by
    simp only [List.length_take]; omega
  have hsmall : ¬ 50 < (s.history.take (s.historyIndex + 1).toNat
      ++ [(⟨d, now⟩ : HistoryEntry α)]).length := by
    simp only [List.length_append, htake, List.length_cons, List.length_nil]
    omega
  simp only [saveToHistory, hsmall, if_false]
  constructor
  · simp [canRedo]
  · trivial

/-! ## Claim theorems for the canvas history engine -/

/-- C3: the history length never exceeds the capacity 50 for any sequence of
commits from the initial state; immediately after any commit from a
well-formed state, `current()` is the snapshot just committed; and
committing 51 snapshots into an empty capacity-50 history gives
`length == 50`, `position == 49`, the first committed snapshot is no longer
in the history, and `current()` is the 51st snapshot. -/
theorem claim_history_capacity_and_current :
    (∀ (α : Type) (ds : List (α × Nat)),
        (commitAll (⟨[], -1⟩ : CanvasHistory α) ds).history.length ≤ 50)
    ∧ (∀ (α : Type) (s : CanvasHistory α) (d : α) (now : Nat),
        -1 ≤ s.historyIndex → s.historyIndex < (s.history.length : Int) →
        current (saveToHistory s d now) = some ⟨d, now⟩)
    ∧ ((commitAll (initialCanvas : CanvasHistory Nat)
          ((List.range 51).map (fun k => (k, k)))).history.length = 50
       ∧ (commitAll (initialCanvas : CanvasHistory Nat)
          ((List.range 51).map (fun k => (k, k)))).historyIndex = 49
       ∧ (∀ e ∈ (commitAll (initialCanvas : CanvasHistory Nat)
          ((List.range 51).map (fun k => (k, k)))).history, e.imageData ≠ 0)
       ∧ current (commitAll (initialCanvas : CanvasHistory Nat)
          ((List.range 51).map (fun k => (k, k)))) = some ⟨50, 50⟩) := by
  refine ⟨fun α ds => commitAll_length_le ds _ (by simp),
    fun α s d now h0 h1 => current_saveToHistory_eq s d now h0 h1, ?_⟩
  set_option maxRecDepth 20000 in decide

/-- C3 witness: instantiation of the conditional parts at concrete inputs. -/
theorem claim_history_capacity_and_current_witness :
    (commitAll (⟨[], -1⟩ : CanvasHistory Nat) [(7, 0)]).history.length ≤ 50
    ∧ current (saveToHistory (⟨[⟨9, 0⟩], 0⟩ : CanvasHistory Nat) 3 4) = some ⟨3, 4⟩ :=
  ⟨claim_history_capacity_and_current.1 Nat [(7, 0)],
   claim_history_capacity_and_current.2.1 Nat ⟨[⟨9, 0⟩], 0⟩ 3 4 (by decide) (by decide)⟩

/-- C5: from any valid non-empty history with `position > 0`, `undo()`
immediately followed by `redo()` restores the whole state, in particular the
snapshot that was current before the `undo()` and the cursor position. -/
theorem claim_undo_redo_roundtrip :
    ∀ (α : Type) (s : CanvasHistory α), 0 < s.historyIndex →
      s.historyIndex < (s.history.length : Int) →
      redo (undo s) = s ∧ current (redo (undo s)) = current s
        ∧ (redo (undo s)).historyIndex = s.historyIndex := by
  intro α s h0 h1
  have h := redo_undo_eq s h0 h1
  exact ⟨h, by rw [h], by rw [h]⟩

/-- C5 witness: the roundtrip at a concrete two-entry history. -/
theorem claim_undo_redo_roundtrip_witness :
    redo (undo (⟨[⟨5, 0⟩, ⟨6, 1⟩], 1⟩ : CanvasHistory Nat))
      = (⟨[⟨5, 0⟩, ⟨6, 1⟩], 1⟩ : CanvasHistory Nat) :=
  (claim_undo_redo_roundtrip Nat ⟨[⟨5, 0⟩, ⟨6, 1⟩], 1⟩ (by decide) (by decide)).1

/-- C6: a commit performed while `canRedo()` holds (the cursor is strictly
before the last entry, i.e. after one or more undos) first truncates every
entry after the cursor and then appends, so `canRedo()` is false immediately
afterwards. -/
theorem claim_commit_discards_redo :
    ∀ (α : Type) (s : CanvasHistory α) (d : α) (now : Nat),
      s.history.length ≤ 50 → canRedo s = true →
      canRedo (saveToHistory s d now) = false ∧
        (saveToHistory s d now).history
          = s.history.take (s.historyIndex + 1).toNat ++ [⟨d, now⟩] := by
  intro α s d now hlen hredo
  have h : s.historyIndex < (s.history.length : Int) - 1 := by
    simpa [canRedo] using hredo
  exact commit_after_undo_canRedo s d now hlen h

/-- C6 witness: committing after an undo in a concrete two-entry history. -/
theorem claim_commit_discards_redo_witness :
    canRedo (saveToHistory (⟨[⟨5, 0⟩, ⟨6, 1⟩], 0⟩ : CanvasHistory Nat) 7 2) = false :=
  (claim_commit_discards_redo Nat ⟨[⟨5, 0⟩, ⟨6, 1⟩], 0⟩ 7 2 (by decide) (by decide)).1

/-! ## Guess orchestrator lemmas -/

namespace Backend

theorem guessPoolFor_length_pos (n : Nat) : 0 < (guessPoolFor n).length := by
  unfold guessPoolFor
  split
  · decide
  · split <;> decide

theorem mock_guess_mem (img : String) (reason : Option String) (r rjit : ℚ)
    (h0 : 0 ≤ r) (h1 : r < 1) :
    (getIntelligentMockResponse img reason r rjit).guess
      ∈ guessPoolFor img.length := by
  have hpos := guessPoolFor_length_pos img.length
  have hmq : (0 : ℚ) < ((guessPoolFor img.length).length : ℚ) := by exact_mod_cast hpos
  have hfl : ⌊r * ((guessPoolFor img.length).length : ℚ)⌋
      < ((guessPoolFor img.length).length : Int) := by
    apply Int.floor_lt.2
    push_cast
    calc r * ((guessPoolFor img.length).length : ℚ)
        < 1 * ((guessPoolFor img.length).length : ℚ) := by
          exact mul_lt_mul_of_pos_right h1 hmq
      _ = ((guessPoolFor img.length).length : ℚ) := by ring
  have hnn : 0 ≤ ⌊r * ((guessPoolFor img.length).length : ℚ)⌋ :=
    Int.floor_nonneg.2 (by positivity)
  have hidx : (⌊r * ((guessPoolFor img.length).length : ℚ)⌋).toNat
      < (guessPoolFor img.length).length := by omega
  simp only [getIntelligentMockResponse]
  rw [List.getD_eq_getElem _ _ hidx]
  exact List.getElem_mem hidx

theorem pool_elems_ne_empty (n : Nat) :
    ∀ g ∈ guessPoolFor n, g ≠ "" := by
  unfold guessPoolFor
  split
  · decide
  · split <;> decide

theorem floor_index_uniform (m : Nat) (hm : 0 < m) (i : Nat) (r : ℚ)
    (h0 : 0 ≤ r) :
    (Int.toNat ⌊r * (m : ℚ)⌋ = i
      ↔ (i : ℚ) / (m : ℚ) ≤ r ∧ r < ((i : ℚ) + 1) / (m : ℚ)) := by
  have hmq : (0 : ℚ) < (m : ℚ) := by exact_mod_cast hm
  have hnn : 0 ≤ ⌊r * (m : ℚ)⌋ := Int.floor_nonneg.2 (by positivity)
  have h1 : Int.toNat ⌊r * (m : ℚ)⌋ = i ↔ ⌊r * (m : ℚ)⌋ = (i : Int) := by omega
  rw [h1, Int.floor_eq_iff, div_le_iff₀ hmq, lt_div_iff₀ hmq]
  push_cast
  constructor
  · rintro ⟨a, b⟩
    exact ⟨by linarith, by linarith⟩
  · rintro ⟨a, b⟩
    exact ⟨by linarith, by linarith⟩

theorem guessImage_success_eq_true (img : String) (env : BackendEnv) :
    (guessImage img env).resp.success = true := by
  rcases env with ⟨key, tenv, rem, r, rj⟩
  cases key
  · simp [guessImage, getIntelligentMockResponse]
  · cases rem with
    | resolves content t =>
        by_cases h : t < backendTimeout tenv <;>
          simp [guessImage, h, fallbackOutcome, getIntelligentMockResponse]
    | rejects msg t =>
        by_cases h : t < backendTimeout tenv <;>
          simp [guessImage, h, fallbackOutcome, getIntelligentMockResponse]
    | hangs => simp [guessImage, fallbackOutcome, getIntelligentMockResponse]

theorem guessImage_offline (img : String) (env : BackendEnv)
    (hk : env.apiKeySet = false) :
    (guessImage img env).remoteAttempted = false
      ∧ (guessImage img env).resp.suggestions = some smartSuggestions := by
  rcases env with ⟨key, tenv, rem, r, rj⟩
  cases key
  · simp [guessImage, getIntelligentMockResponse]
  · simp at hk

theorem guessImage_rejects_fallback (img msg : String) (t : Nat) (env : BackendEnv)
    (hr : env.remote = .rejects msg t) :
    (guessImage img env).resp.suggestions = some smartSuggestions := by
  rcases env with ⟨key, tenv, rem, r, rj⟩
  cases hr
  cases key
  · simp [guessImage, getIntelligentMockResponse]
  · by_cases h : t < backendTimeout tenv <;>
      simp [guessImage, h, fallbackOutcome, getIntelligentMockResponse]

theorem guessImage_hangs_fallback (img : String) (env : BackendEnv)
    (hr : env.remote = .hangs) :
    (guessImage img env).resp.suggestions = some smartSuggestions := by
  rcases env with ⟨key, tenv, rem, r, rj⟩
  cases hr
  cases key
  · simp [guessImage, getIntelligentMockResponse]
  · simp [guessImage, fallbackOutcome, getIntelligentMockResponse]

end Backend

namespace Frontend

theorem frontend_success_eq_true (env : FrontendEnv) :
    (guessImage env).resp.success = true := by
  rcases env with ⟨online, api, r, rj⟩
  cases online
  · simp [guessImage, getMockResponse]
  · cases api <;> simp [guessImage, getMockResponse]

theorem frontend_offline (env : FrontendEnv) (h : env.isOnlineMode = false) :
    (guessImage env).remoteAttempted = false := by
  rcases env with ⟨online, api, r, rj⟩
  cases online
  · simp [guessImage]
  · simp at h

end Frontend

namespace Backend

theorem generateSmartSuggestions_length_le (g : String) :
    (generateSmartSuggestions g).length ≤ 4 := by
  unfold generateSmartSuggestions
  simp [List.length_take]

theorem guessImage_resolves_resp (img : String) (env : BackendEnv)
    (content : Option String) (t : Nat)
    (hk : env.apiKeySet = true) (hr : env.remote = .resolves content t)
    (ht : t < backendTimeout env.aiTimeoutEnv) :
    (guessImage img env).resp.guess = processRemoteGuess content
    ∧ (guessImage img env).resp.confidence
        = confidenceForGuess (processRemoteGuess content)
    ∧ (guessImage img env).resp.suggestions
        = some (generateSmartSuggestions (processRemoteGuess content)) := by
  rcases env with ⟨key, tenv, rem, r, rj⟩
  cases hr
  cases key
  · simp at hk
  · simp only [backendTimeout] at ht
    simp [guessImage, backendTimeout, ht, callOpenAISuccess]

theorem guessImage_rejects_resp (img msg : String) (t : Nat) (env : BackendEnv)
    (hr : env.remote = .rejects msg t) :
    (guessImage img env).resp.error = none
    ∧ (guessImage img env).resp.guess
        = (getIntelligentMockResponse img none env.r env.rjit).guess := by
  rcases env with ⟨key, tenv, rem, r, rj⟩
  cases hr
  cases key
  · simp [guessImage, getIntelligentMockResponse]
  · by_cases h : t < backendTimeout tenv <;>
      simp [guessImage, h, fallbackOutcome, getIntelligentMockResponse]

theorem guessImage_hangs_resp (img : String) (env : BackendEnv)
    (hk : env.apiKeySet = true) (hr : env.remote = .hangs) :
    (guessImage img env).elapsedMs = backendTimeout env.aiTimeoutEnv
    ∧ (guessImage img env).resp.error = none := by
  rcases env with ⟨key, tenv, rem, r, rj⟩
  cases hr
  cases key
  · simp at hk
  · simp [guessImage, fallbackOutcome, getIntelligentMockResponse]

end Backend

/-! ## Claim theorems for the guess orchestrator -/

/-- C1: `guess()` never surfaces a hard failure for expected error
conditions.  Backend: every outcome has `success = true`; without an API
key the remote call is never attempted and the fallback response (fixed
fallback suggestion list) is returned; a remote rejection (transport,
auth, quota or rate-limit error) or a hanging remote call also yields the
fallback response.  Frontend: every outcome has `success = true` and
offline mode never attempts the HTTP call. -/
theorem claim_guess_never_hard_fails :
    ∀ (img : String) (env : Backend.BackendEnv) (fenv : Frontend.FrontendEnv),
      (Backend.guessImage img env).resp.success = true
      ∧ (env.apiKeySet = false →
          (Backend.guessImage img env).remoteAttempted = false
          ∧ (Backend.guessImage img env).resp.suggestions = some Backend.smartSuggestions)
      ∧ (∀ msg t, env.remote = .rejects msg t →
          (Backend.guessImage img env).resp.suggestions = some Backend.smartSuggestions)
      ∧ (env.remote = .hangs →
          (Backend.guessImage img env).resp.suggestions = some Backend.smartSuggestions)
      ∧ (Frontend.guessImage fenv).resp.success = true
      ∧ (fenv.isOnlineMode = false → (Frontend.guessImage fenv).remoteAttempted = false) :=
  fun img env fenv =>
    ⟨Backend.guessImage_success_eq_true img env,
     fun hk => Backend.guessImage_offline img env hk,
     fun msg t hr => Backend.guessImage_rejects_fallback img msg t env hr,
     fun hr => Backend.guessImage_hangs_fallback img env hr,
     Frontend.frontend_success_eq_true fenv,
     fun h => Frontend.frontend_offline fenv h⟩

/-- C1 witness: offline backend call, rejecting remote call and offline
frontend call at concrete inputs. -/
theorem claim_guess_never_hard_fails_witness :
    (Backend.guessImage ("a") ⟨false, none, .hangs, 0, 0⟩).resp.success = true
    ∧ (Backend.guessImage ("a") ⟨false, none, .hangs, 0, 0⟩).remoteAttempted = false
    ∧ (Backend.guessImage ("b") ⟨true, none, .rejects ("boom") 5, 0, 0⟩).resp.suggestions
        = some Backend.smartSuggestions
    ∧ (Frontend.guessImage ⟨false, .fail (""), 0, 0⟩).remoteAttempted = false :=
  ⟨(claim_guess_never_hard_fails ("a") ⟨false, none, .hangs, 0, 0⟩
      ⟨false, .fail (""), 0, 0⟩).1,
   ((claim_guess_never_hard_fails ("a") ⟨false, none, .hangs, 0, 0⟩
      ⟨false, .fail (""), 0, 0⟩).2.1 rfl).1,
   (claim_guess_never_hard_fails ("b") ⟨true, none, .rejects ("boom") 5, 0, 0⟩
      ⟨false, .fail (""), 0, 0⟩).2.2.1 ("boom") 5 rfl,
   (claim_guess_never_hard_fails ("a") ⟨false, none, .hangs, 0, 0⟩
      ⟨false, .fail (""), 0, 0⟩).2.2.2.2.2 rfl⟩

/-- C2 counterexample: with credentials configured and the remote call
rejecting with a simulated 429 rate-limit error, `guess()` resolves with
`success = true` but the returned result carries no failure-reason text at
all (its optional `error` field is `none`); the claim that the returned
GuessResult carries a human-readable failureReason containing a rate-limit
indicator is therefore false on the code, where the reason string is only
logged. -/
theorem claim_rate_limit_reason_cex :
    (Backend.guessImage ("img")
        ⟨true, none, .rejects ("Request failed with status code 429") 100, 0, 0⟩).resp.success = true
    ∧ (Backend.guessImage ("img")
        ⟨true, none, .rejects ("Request failed with status code 429") 100, 0, 0⟩).resp.error = none := by
  constructor
  · exact Backend.guessImage_success_eq_true ("img")
      ⟨true, none, .rejects ("Request failed with status code 429") 100, 0, 0⟩
  · exact (Backend.guessImage_rejects_resp ("img") ("Request failed with status code 429") 100
      ⟨true, none, .rejects ("Request failed with status code 429") 100, 0, 0⟩ rfl).1

/-- C2 amended: every remote error absorbed by the orchestrator is
converted into a successful fallback GuessResult with a non-empty guess
drawn from the fallback pools; the human-readable reason (for a 429
message the fixed rate-limit text) is only passed to the fallback
generator for logging, and the returned result carries no failureReason
field (`error = none`). -/
theorem claim_absorbed_errors_amended :
    ∀ (img msg : String) (t : Nat) (env : Backend.BackendEnv),
      env.apiKeySet = true → env.remote = .rejects msg t → 0 ≤ env.r → env.r < 1 →
      (Backend.guessImage img env).resp.success = true
      ∧ (Backend.guessImage img env).resp.guess ∈ Backend.guessPoolFor img.length
      ∧ (Backend.guessImage img env).resp.guess ≠ ""
      ∧ (Backend.guessImage img env).resp.error = none
      ∧ (containsSub msg ("401") = false → containsSub msg ("429") = true →
          Backend.mapOpenAIError msg = "API调用频率限制，请稍后重试") := by
  intro img msg t env hk hr h0 h1
  have hresp := Backend.guessImage_rejects_resp img msg t env hr
  have hmem0 := Backend.mock_guess_mem img none env.r env.rjit h0 h1
  have hmem : (Backend.guessImage img env).resp.guess ∈ Backend.guessPoolFor img.length := by
    rw [hresp.2]; exact hmem0
  refine ⟨Backend.guessImage_success_eq_true img env, hmem,
    Backend.pool_elems_ne_empty img.length _ hmem, hresp.1, ?_⟩
  intro ha hb
  simp [Backend.mapOpenAIError, ha, hb]

/-- C2 amended witness: the simulated 429 rejection at concrete inputs. -/
theorem claim_absorbed_errors_amended_witness :
    (Backend.guessImage ("img")
        ⟨true, none, .rejects ("Request failed with status code 429") 100, 0, 0⟩).resp.guess
      ∈ Backend.guessPoolFor ("img" : String).length
    ∧ Backend.mapOpenAIError ("Request failed with status code 429")
        = "API调用频率限制，请稍后重试" := by
  have h := claim_absorbed_errors_amended ("img") ("Request failed with status code 429") 100
    ⟨true, none, .rejects ("Request failed with status code 429") 100, 0, 0⟩
    rfl rfl (by norm_num) (by norm_num)
  exact ⟨h.2.1, h.2.2.2.2 (by decide) (by decide)⟩

/-- C4 counterexample: with the default configuration and a remote call
that never settles, `guess()` resolves exactly when the 60000 ms timer
fires, but the returned result carries no failureReason indicating timeout
(its optional `error` field is `none`): the timeout reason string is only
used internally for logging and fallback selection. -/
theorem claim_timeout_reason_cex :
    (Backend.guessImage ("x") ⟨true, none, .hangs, 0, 0⟩).elapsedMs = 60000
    ∧ (Backend.guessImage ("x") ⟨true, none, .hangs, 0, 0⟩).resp.error = none := by
  have h := Backend.guessImage_hangs_resp ("x") ⟨true, none, .hangs, 0, 0⟩ rfl rfl
  exact ⟨h.1, h.2⟩

/-- C4 amended: for a remote call that never resolves, the timeout timer
wins the race and `guess()` returns a successful fallback result exactly at
the configured timeout (hence within timeout plus any epsilon); the
defaults are 60000 ms for the backend orchestrator and 30000 ms for the
frontend client; the returned result carries no failureReason field
(`error = none`) — the timeout reason is only logged. -/
theorem claim_timeout_race_amended :
    ∀ (img : String) (env : Backend.BackendEnv),
      env.apiKeySet = true → env.remote = .hangs →
      (Backend.guessImage img env).elapsedMs = Backend.backendTimeout env.aiTimeoutEnv
      ∧ (Backend.guessImage img env).elapsedMs ≤ Backend.backendTimeout env.aiTimeoutEnv
      ∧ (Backend.guessImage img env).resp.success = true
      ∧ (Backend.guessImage img env).resp.suggestions = some Backend.smartSuggestions
      ∧ (Backend.guessImage img env).resp.error = none
      ∧ Backend.backendTimeout none = 60000
      ∧ Frontend.frontendConfigTimeout none = 30000 := by
  intro img env hk hr
  have h := Backend.guessImage_hangs_resp img env hk hr
  exact ⟨h.1, le_of_eq h.1, Backend.guessImage_success_eq_true img env,
    Backend.guessImage_hangs_fallback img env hr, h.2, rfl, rfl⟩

/-- C4 amended witness: a hanging remote call with a 1000 ms configured
timeout. -/
theorem claim_timeout_race_amended_witness :
    (Backend.guessImage ("y") ⟨true, some 1000, .hangs, 0, 0⟩).elapsedMs = 1000
    ∧ (Backend.guessImage ("y") ⟨true, some 1000, .hangs, 0, 0⟩).resp.success = true :=
  ⟨(claim_timeout_race_amended ("y") ⟨true, some 1000, .hangs, 0, 0⟩ rfl rfl).1,
   (claim_timeout_race_amended ("y") ⟨true, some 1000, .hangs, 0, 0⟩ rfl rfl).2.2.1⟩

/-- C7: the fallback guess is drawn from the pool selected by the byte
size of the encoded image (large input → complex-scene pool, small input →
simple-icon pool, otherwise the everyday-object pool); the confidence is
exactly `0.7` when the input carries the `data:image/` format marker and
`0.6` otherwise; and the pool pick is uniform: the draw maps to index `i`
exactly on the subinterval `[i/n, (i+1)/n)` of `[0,1)`, for every index of
the selected pool. -/
theorem claim_fallback_pool_and_confidence :
    (∀ (img : String) (reason : Option String) (r rjit : ℚ), 0 ≤ r → r < 1 →
        (Backend.getIntelligentMockResponse img reason r rjit).guess
          ∈ Backend.guessPoolFor img.length)
    ∧ (∀ n : Nat, 100000 < n → Backend.guessPoolFor n = Backend.largeImageGuesses)
    ∧ (∀ n : Nat, n < 10000 → Backend.guessPoolFor n = Backend.smallImageGuesses)
    ∧ (∀ n : Nat, 10000 ≤ n → n ≤ 100000 → Backend.guessPoolFor n = Backend.defaultGuesses)
    ∧ (∀ (img : String) (reason : Option String) (r rjit : ℚ),
        (Backend.getIntelligentMockResponse img reason r rjit).confidence
          = if strStartsWith img ("data:image/") then 7/10 else 6/10)
    ∧ (∀ (img : String) (reason : Option String) (r rjit : ℚ),
        (Backend.getIntelligentMockResponse img reason r rjit).confidence = 7/10
        ∨ (Backend.getIntelligentMockResponse img reason r rjit).confidence = 6/10)
    ∧ (∀ (n i : Nat) (r : ℚ), 0 ≤ r →
        (Int.toNat ⌊r * ((Backend.guessPoolFor n).length : ℚ)⌋ = i
          ↔ (i : ℚ) / ((Backend.guessPoolFor n).length : ℚ) ≤ r
            ∧ r < ((i : ℚ) + 1) / ((Backend.guessPoolFor n).length : ℚ))) := by
  refine ⟨fun img reason r rjit h0 h1 => Backend.mock_guess_mem img reason r rjit h0 h1,
    ?_, ?_, ?_, ?_, ?_, ?_⟩
  · intro n h
    simp [Backend.guessPoolFor, h]
  · intro n h
    have h2 : ¬ 100000 < n := by omega
    simp [Backend.guessPoolFor, h2, h]
  · intro n h1 h2
    have h3 : ¬ 100000 < n := by omega
    have h4 : ¬ n < 10000 := by omega
    simp [Backend.guessPoolFor, h3, h4]
  · intro img reason r rjit
    rfl
  · intro img reason r rjit
    by_cases h : strStartsWith img ("data:image/") = true
    · left
      simp [Backend.getIntelligentMockResponse, h]
    · right
      simp only [Bool.not_eq_true] at h
      simp [Backend.getIntelligentMockResponse, h]
  · intro n i r h0
    exact Backend.floor_index_uniform _ (Backend.guessPoolFor_length_pos n) i r h0

/-- C7 witness: membership, pool selection and the uniformity interval at
concrete inputs. -/
theorem claim_fallback_pool_and_confidence_witness :
    (Backend.getIntelligentMockResponse ("abc") none 0 0).guess
      ∈ Backend.guessPoolFor ("abc" : String).length
    ∧ Backend.guessPoolFor 5 = Backend.smallImageGuesses
    ∧ (Int.toNat ⌊(0 : ℚ) * ((Backend.guessPoolFor 5).length : ℚ)⌋ = 0
        ↔ (0 : ℚ) / ((Backend.guessPoolFor 5).length : ℚ) ≤ 0
          ∧ (0 : ℚ) < ((0 : ℚ) + 1) / ((Backend.guessPoolFor 5).length : ℚ)) :=
  ⟨claim_fallback_pool_and_confidence.1 ("abc") none 0 0 (by norm_num) (by norm_num),
   claim_fallback_pool_and_confidence.2.2.1 5 (by norm_num),
   by
    have h := claim_fallback_pool_and_confidence.2.2.2.2.2.2 5 0 0 (by norm_num)
    push_cast at h ⊢
    exact h⟩

/-- C8: on remote success the confidence is derived only from the length
of the remote text (equal lengths give equal confidence), is clamped to
the three bands `0.7`, `0.8`, `0.9` (short → `0.7`, long → `0.9`, default
`0.8`), is monotone in the response length, and the successful
`guessImage` path reports exactly this length-derived confidence for its
guess. -/
theorem claim_confidence_bands :
    (∀ g1 g2 : String, g1.length = g2.length →
        Backend.confidenceForGuess g1 = Backend.confidenceForGuess g2)
    ∧ (∀ g : String, Backend.confidenceForGuess g = 7/10
        ∨ Backend.confidenceForGuess g = 8/10 ∨ Backend.confidenceForGuess g = 9/10)
    ∧ (∀ g : String, g.length < 5 → Backend.confidenceForGuess g = 7/10)
    ∧ (∀ g : String, 20 < g.length → Backend.confidenceForGuess g = 9/10)
    ∧ (∀ g : String, 5 ≤ g.length → g.length ≤ 20 → Backend.confidenceForGuess g = 8/10)
    ∧ (∀ g1 g2 : String, g1.length ≤ g2.length →
        Backend.confidenceForGuess g1 ≤ Backend.confidenceForGuess g2)
    ∧ (∀ (img : String) (env : Backend.BackendEnv) (content : Option String) (t : Nat),
        env.apiKeySet = true → env.remote = .resolves content t →
        t < Backend.backendTimeout env.aiTimeoutEnv →
        (Backend.guessImage img env).resp.confidence
          = Backend.confidenceForGuess ((Backend.guessImage img env).resp.guess)) := by
  refine ⟨?_, ?_, ?_, ?_, ?_, ?_, ?_⟩
  · intro g1 g2 h
    simp [Backend.confidenceForGuess, h]
  · intro g
    unfold Backend.confidenceForGuess
    split_ifs <;> simp
  · intro g h
    have h2 : ¬ 20 < g.length := by omega
    simp [Backend.confidenceForGuess, h, h2]
  · intro g h
    simp [Backend.confidenceForGuess, h]
  · intro g h1 h2
    have h3 : ¬ 20 < g.length := by omega
    have h4 : ¬ g.length < 5 := by omega
    simp [Backend.confidenceForGuess, h3, h4]
  · intro g1 g2 h
    unfold Backend.confidenceForGuess
    split_ifs <;> first | (exfalso; omega) | norm_num
  · intro img env content t hk hr ht
    have h := Backend.guessImage_resolves_resp img env content t hk hr ht
    rw [h.2.1, h.1]

/-- C8 witness: a short guess lands in the low band, and the successful
remote path at concrete inputs reports the length-derived confidence. -/
theorem claim_confidence_bands_witness :
    Backend.confidenceForGuess ("一只猫") = 7/10
    ∧ (Backend.guessImage ("x") ⟨true, none, .resolves (some ("一只小猫咪")) 10, 0, 0⟩).resp.confidence
        = Backend.confidenceForGuess
            ((Backend.guessImage ("x") ⟨true, none, .resolves (some ("一只小猫咪")) 10, 0, 0⟩).resp.guess) :=
  ⟨claim_confidence_bands.2.2.1 ("一只猫") (by decide),
   claim_confidence_bands.2.2.2.2.2.2 ("x") ⟨true, none, .resolves (some ("一只小猫咪")) 10, 0, 0⟩
     (some ("一只小猫咪")) 10 rfl rfl (by decide)⟩

/-- C9: every suggestions list has at most 4 entries: the keyword-derived
list always, the response of every `guessImage` path (remote success or
fallback), and the successful remote path derives its suggestions by
keyword-matching the guess text, defaulting to the generic
object/pattern/shape set when no keyword matches. -/
theorem claim_suggestions_bounded :
    (∀ g : String, (Backend.generateSmartSuggestions g).length ≤ 4)
    ∧ (∀ (img : String) (env : Backend.BackendEnv),
        (((Backend.guessImage img env).resp.suggestions).getD []).length ≤ 4)
    ∧ (∀ (img : String) (env : Backend.BackendEnv) (content : Option String) (t : Nat),
        env.apiKeySet = true → env.remote = .resolves content t →
        t < Backend.backendTimeout env.aiTimeoutEnv →
        (Backend.guessImage img env).resp.suggestions
          = some (Backend.generateSmartSuggestions ((Backend.guessImage img env).resp.guess)))
    ∧ (∀ g : String,
        containsSub g ("猫") = false → containsSub g ("狗") = false →
        containsSub g ("鸟") = false → containsSub g ("花") = false →
        containsSub g ("树") = false → containsSub g ("山") = false →
        containsSub g ("车") = false → containsSub g ("房子") = false →
        containsSub g ("人") = false →
        Backend.generateSmartSuggestions g = ["物体", "图案", "形状"]) := by
  refine ⟨Backend.generateSmartSuggestions_length_le, ?_, ?_, ?_⟩
  · intro img env
    rcases env with ⟨key, tenv, rem, r, rj⟩
    cases key
    · simp [Backend.guessImage, Backend.getIntelligentMockResponse, Backend.smartSuggestions]
    · cases rem with
      | resolves content t =>
          by_cases h : t < Backend.backendTimeout tenv
          · simp [Backend.guessImage, h, Backend.callOpenAISuccess,
              Backend.generateSmartSuggestions_length_le]
          · simp [Backend.guessImage, h, Backend.fallbackOutcome,
              Backend.getIntelligentMockResponse, Backend.smartSuggestions]
      | rejects msg t =>
          by_cases h : t < Backend.backendTimeout tenv <;>
            simp [Backend.guessImage, h, Backend.fallbackOutcome,
              Backend.getIntelligentMockResponse, Backend.smartSuggestions]
      | hangs =>
          simp [Backend.guessImage, Backend.fallbackOutcome,
            Backend.getIntelligentMockResponse, Backend.smartSuggestions]
  · intro img env content t hk hr ht
    have h := Backend.guessImage_resolves_resp img env content t hk hr ht
    rw [h.2.2, h.1]
  · intro g h1 h2 h3 h4 h5 h6 h7 h8 h9
    simp [Backend.generateSmartSuggestions, h1, h2, h3, h4, h5, h6, h7, h8, h9]

/-- C9 witness: the bound on the fallback path and the generic default
suggestions at concrete inputs. -/
theorem claim_suggestions_bounded_witness :
    ((((Backend.guessImage ("x") ⟨true, none, .hangs, 0, 0⟩).resp.suggestions).getD []).length ≤ 4)
    ∧ Backend.generateSmartSuggestions ("一个圆圈") = ["物体", "图案", "形状"] :=
  ⟨claim_suggestions_bounded.2.1 ("x") ⟨true, none, .hangs, 0, 0⟩,
   claim_suggestions_bounded.2.2.2 ("一个圆圈") (by decide) (by decide) (by decide) (by decide)
     (by decide) (by decide) (by decide) (by decide) (by decide)⟩

/-- C10: every fallback response carries exactly the same fixed 4-element
suggestion list of generic analysis terms, independent of the input image,
the reason and both random draws; every rejected-remote `guessImage` path
returns that same fixed list; and the remote-success keyword derivation can
produce a different list, so fallback suggestions are not derived from the
guess text. -/
theorem claim_fallback_suggestions_constant :
    (∀ (img : String) (reason : Option String) (r rjit : ℚ),
        (Backend.getIntelligentMockResponse img reason r rjit).suggestions
          = some ["物体识别", "图案分析", "形状特征", "颜色构成"])
    ∧ (∀ (img msg : String) (t : Nat) (env : Backend.BackendEnv),
        env.remote = .rejects msg t →
        (Backend.guessImage img env).resp.suggestions
          = some ["物体识别", "图案分析", "形状特征", "颜色构成"])
    ∧ (∃ g : String, Backend.generateSmartSuggestions g
        ≠ ["物体识别", "图案分析", "形状特征", "颜色构成"]) := by
  refine ⟨fun img reason r rjit => rfl, ?_, ⟨"", by decide⟩⟩
  intro img msg t env hr
  exact Backend.guessImage_rejects_fallback img msg t env hr

/-- C10 witness: a rejected remote call at concrete inputs yields the
fixed fallback suggestion list. -/
theorem claim_fallback_suggestions_constant_witness :
    (Backend.guessImage ("w") ⟨true, none, .rejects ("oops") 1, 0, 0⟩).resp.suggestions
      = some ["物体识别", "图案分析", "形状特征", "颜色构成"] :=
  claim_fallback_suggestions_constant.2.1 ("w") ("oops") 1
    ⟨true, none, .rejects ("oops") 1, 0, 0⟩ rfl

end DrawGuess
